import Mathlib

/-!
Shallow embedding of the message-synchronization logic of
`src/components/ChatPage.jsx` (a realtime chat client).  Strings model the
JavaScript strings of the source; `Option String` models a field that may be
`null`/`undefined`; JS truthiness of such a field (`undefined`, `null` and
`""` are falsy) is modelled by `truthy`, and the JS `||` operator on those
fields by `jsOr`.
-/

namespace ChatApp

/-- JS truthiness of a nullable string: `null`/`undefined` and `""` are falsy. -/
def truthy : Option String → Bool
  | none => false
  | some s => s != ""

/-- JS `a || b` on nullable strings: `a` wins when it is truthy. -/
def jsOr (a b : Option String) : Option String :=
  if truthy a then a else b

/-- Rendering of a nullable field inside a JS template literal
(`undefined`/`null` both print a placeholder word; the source never compares
keys built from a `null` field with keys built from an `undefined` one). -/
def showOptS : Option String → String
  | none => "undefined"
  | some s => s

/-- `generateMessageKey` (ChatPage.jsx lines 46-48):
a template literal over `message_id || temp_id`, `sender_id`, `receiver_id`,
`created_at`. -/
def genKey (mid tid sid rid ca : Option String) : String :=
  showOptS (jsOr mid tid) ++ "-" ++ showOptS sid ++ "-" ++ showOptS rid ++ "-" ++ showOptS ca

/-- ASCII whitespace, for the model of JS `String.trim`. -/
def isWs (c : Char) : Bool :=
  c == ' ' || c == '\t' || c == '\n' || c == '\r'

/-- JS `s.trim()`: strip whitespace from both ends. -/
def jsTrim (s : String) : String :=
  String.mk (((s.data.dropWhile isWs).reverse.dropWhile isWs).reverse)

/-- Hex digit, both cases, as accepted by the UUID regex with the `i` flag. -/
def isHexDigit (c : Char) : Bool :=
  (decide ('0' ≤ c) && decide (c ≤ '9')) ||
  (decide ('a' ≤ c) && decide (c ≤ 'f')) ||
  (decide ('A' ≤ c) && decide (c ≤ 'F'))

/-- `isValidUUID` (ChatPage.jsx lines 40-43): the fixed regex
`^[0-9a-f]8-[0-9a-f]4-[1-5][0-9a-f]3-[89ab][0-9a-f]3-[0-9a-f]12$` with the
case-insensitive flag, expressed positionally over the 36 characters. -/
def isValidUUID (s : String) : Bool :=
  let cs := s.data
  cs.length == 36 &&
  (List.range 36).all (fun i =>
    let c := cs.getD i ' '
    if i == 8 || i == 13 || i == 18 || i == 23 then c == '-'
    else if i == 14 then decide ('1' ≤ c) && decide (c ≤ '5')
    else if i == 19 then c == '8' || c == '9' || c == 'a' || c == 'b' || c == 'A' || c == 'B'
    else isHexDigit c)

/-- A roster user as used by the merge path (`currentUser` / `selectedUser`). -/
structure UserR where
  id : String
  username : String
deriving DecidableEq, Repr

/-- A message entry of the `messages` state list. -/
structure Msg where
  message_id : Option String
  temp_id : Option String
  sender_id : Option String
  receiver_id : Option String
  text : Option String
  media_url : Option String
  media_type : Option String
  file_name : Option String
  sender_name : Option String
  created_at : Option String
  edited_at : Option String
  edited : Bool
  key : String
deriving DecidableEq, Repr

/-- An inbound `message` frame (ChatPage.jsx `ws.current.onmessage`,
§6 schema): every field except `edited` may be absent. -/
structure MsgEvent where
  sender_id : Option String
  receiver_id : Option String
  text : Option String
  media_url : Option String
  media_type : Option String
  file_name : Option String
  message_id : Option String
  temp_id : Option String
  created_at : Option String
  sender_name : Option String
  edited : Bool
deriving DecidableEq, Repr

/-- Case-insensitive character-list prefix test. -/
def listPrefixB : List Char → List Char → Bool
  | [], _ => true
  | _ :: _, [] => false
  | a :: as, b :: bs => a == b && listPrefixB as bs

/-- Contiguous-subsequence test on character lists (JS `String.includes`). -/
def listContainsB (pat : List Char) : List Char → Bool
  | [] => pat.isEmpty
  | b :: bs => listPrefixB pat (b :: bs) || listContainsB pat bs

/-- `s.includes(pat)` of JS. -/
def containsSubstrB (s pat : String) : Bool :=
  listContainsB pat.data s.data

/-- Case-insensitive suffix test on strings (the `/...$/i` regexes). -/
def suffixCI (pat s : String) : Bool :=
  listPrefixB (pat.data.map Char.toLower).reverse (s.data.map Char.toLower).reverse

/-- Media-kind inference from the URL (ChatPage.jsx lines 291-294 and 312-315):
`media_url?.match(/\.(jpg|jpeg|png|gif)$/i) ? "image" :
 media_url?.match(/\.(mp4|webm|ogg)$/i) ? "video" : "file"`. -/
def inferMediaType : Option String → String
  | none => "file"
  | some s =>
    if suffixCI ".jpg" s || suffixCI ".jpeg" s || suffixCI ".png" s || suffixCI ".gif" s then
      "image"
    else if suffixCI ".mp4" s || suffixCI ".webm" s || suffixCI ".ogg" s then
      "video"
    else
      "file"

/-- The duplicate-detection predicate of the inbound `message` case
(ChatPage.jsx lines 278-284):
`(m.message_id && m.message_id === data.message_id) ||
 (m.temp_id && m.temp_id === data.temp_id)`. -/
def matchesEvent (d : MsgEvent) (m : Msg) : Bool :=
  (truthy m.message_id && m.message_id == d.message_id) ||
  (truthy m.temp_id && m.temp_id == d.temp_id)

/-- The display name the add-branch derives when the event has none
(ChatPage.jsx line 311). -/
def derivedName (cu su : UserR) (d : MsgEvent) : String :=
  if d.sender_id == some cu.id then cu.username else su.username

/-- The in-place update of an existing entry by an inbound `message` event
(ChatPage.jsx lines 283-304): incoming truthy fields win, the provisional
identity is retired when the event carries a `temp_id`. -/
def updEntry (cu : UserR) (d : MsgEvent) (m : Msg) : Msg :=
  { message_id := jsOr d.message_id m.message_id
    temp_id := if truthy d.temp_id then none else m.temp_id
    sender_id := d.sender_id
    receiver_id := d.receiver_id
    text := jsOr d.text m.text
    media_url := jsOr d.media_url m.media_url
    media_type := jsOr d.media_type (jsOr m.media_type (some (inferMediaType d.media_url)))
    file_name := jsOr d.file_name m.file_name
    sender_name := jsOr d.sender_name (jsOr m.sender_name (some cu.username))
    created_at := jsOr d.created_at m.created_at
    edited_at := m.edited_at
    edited := d.edited || m.edited
    key := genKey d.message_id d.temp_id d.sender_id d.receiver_id d.created_at }

/-- The fresh entry built by the add-branch of the inbound `message` case
(ChatPage.jsx lines 307-318). -/
def newEntry (cu su : UserR) (d : MsgEvent) : Msg :=
  { message_id := jsOr d.message_id d.temp_id
    temp_id := if truthy d.temp_id then none else d.temp_id
    sender_id := d.sender_id
    receiver_id := d.receiver_id
    text := d.text
    media_url := d.media_url
    media_type := jsOr d.media_type (some (inferMediaType d.media_url))
    file_name := d.file_name
    sender_name := jsOr d.sender_name (some (derivedName cu su d))
    created_at := d.created_at
    edited_at := none
    edited := d.edited
    key := genKey d.message_id d.temp_id d.sender_id d.receiver_id d.created_at }

/-- One entry of the `setMessages` updater: update when the duplicate check
matches, keep otherwise. -/
def updIf (cu : UserR) (d : MsgEvent) (m : Msg) : Msg :=
  if matchesEvent d m then updEntry cu d m else m

/-- The `setMessages` updater of the inbound `message` case after validation
and the conversation-pair check (ChatPage.jsx lines 276-320): update every
matching entry in place, or append a fresh entry at the end. -/
def mergeMessage (cu su : UserR) (d : MsgEvent) (l : List Msg) : List Msg :=
  if l.any (matchesEvent d) then l.map (updIf cu d)
  else l ++ [newEntry cu su d]

/-- Validation of an inbound `message` event (ChatPage.jsx lines 264-268):
both participant identifiers present and well-formed UUIDs. -/
def validB (d : MsgEvent) : Bool :=
  truthy d.sender_id && truthy d.receiver_id &&
  isValidUUID (d.sender_id.getD "") && isValidUUID (d.receiver_id.getD "")

/-- The active-conversation pair check, either direction
(ChatPage.jsx lines 271-274). -/
def pairB (cu su : UserR) (d : MsgEvent) : Bool :=
  (d.sender_id == some cu.id && d.receiver_id == some su.id) ||
  (d.receiver_id == some cu.id && d.sender_id == some su.id)

/-- The whole inbound `message` case (ChatPage.jsx lines 261-330): returns the
new list and the surfaced error, if any.  A validation failure surfaces
`"Received invalid message data."` and leaves the list unchanged; a
pair-mismatch leaves the list unchanged and surfaces nothing (only a console
log); a matching event is merged. -/
def processMessageEvent (cu su : UserR) (d : MsgEvent) (l : List Msg) :
    List Msg × Option String :=
  if !validB d then (l, some "Received invalid message data.")
  else if pairB cu su d then (mergeMessage cu su d l, none)
  else (l, none)

/-- The inbound `edit` case (ChatPage.jsx lines 331-341): set text, mark
edited, stamp `edited_at` on every entry whose `message_id` matches. -/
def applyEditEvent (mid : Option String) (txt ea : Option String) (now : String)
    (l : List Msg) : List Msg :=
  l.map fun m =>
    if m.message_id == mid then
      { m with text := txt, edited := true, edited_at := jsOr ea (some now) }
    else m

/-- The inbound `delete` case (ChatPage.jsx lines 342-345): drop every entry
whose `message_id` matches. -/
def applyDeleteEvent (mid : Option String) (l : List Msg) : List Msg :=
  l.filter fun m => !(m.message_id == mid)

/-- What an inbound `edit` does to a matched entry. -/
def editApplied (txt ea : Option String) (now : String) (m : Msg) : Msg :=
  { m with text := txt, edited := true, edited_at := jsOr ea (some now) }

/-- The transient session of the client: the stored bearer token and the
current route (`navigate("/")` forces re-authentication). -/
structure Session where
  token : Option String
  route : String
deriving DecidableEq, Repr

/-- Classification of an inbound `error` frame (ChatPage.jsx line 363):
substring match for the two auth-invalidating phrases. -/
def authPhraseB (e : String) : Bool :=
  containsSubstrB e "Invalid token" || containsSubstrB e "User not found"

/-- The inbound `error` case (ChatPage.jsx lines 360-368): always surface the
free-text error; when it contains an auth-invalidating phrase also remove the
stored token and navigate back to the login route. -/
def handleErrorFrame (e : String) (s : Session) : Session × Option String :=
  if authPhraseB e then ({ token := none, route := "/" }, some e)
  else (s, some e)

/-- `ws.current.onclose` (ChatPage.jsx lines 385-401) acting on the attempt
counter: below 5, increment first, then schedule one reconnection after
`min(1000 * 2 ^ attempts, 10000)` milliseconds; at 5, schedule nothing. -/
def wsOnClose (attempts : Nat) : Nat × Option Nat :=
  if attempts < 5 then
    (attempts + 1, some (min (1000 * 2 ^ (attempts + 1)) 10000))
  else
    (attempts, none)

/-- `ws.current.onopen` (ChatPage.jsx line 230): a successful connect resets
the attempt counter. -/
def wsOnOpen (_attempts : Nat) : Nat := 0

/-- The scheduled delays (or absence of a retry) produced by `n` consecutive
transport failures starting from a given attempt counter. -/
def failSeq : Nat → Nat → List (Option Nat)
  | _, 0 => []
  | a, n + 1 => (wsOnClose a).2 :: failSeq (wsOnClose a).1 n

/-- Observable side effects of the send / edit handlers, in program order:
a store mutation that appends a pending message, a frame dispatched on the
socket, a REST fallback call, a surfaced error banner, a reconnection
attempt, or delegation to the file-upload path. -/
inductive SAction where
  | store (m : Msg)
  | dispatchMsg (tid : String)
  | dispatchEdit (mid : String)
  | apiEdit (mid : String)
  | surface (e : String)
  | reconnect
  | upload
deriving DecidableEq, Repr

/-- Does an action mutate the message list or dispatch a frame or request? -/
def mutating : SAction → Bool
  | .store _ => true
  | .dispatchMsg _ => true
  | .dispatchEdit _ => true
  | .apiEdit _ => true
  | .upload => true
  | .surface _ => false
  | .reconnect => false

/-- The pending message built by `handleSendMessage`
(ChatPage.jsx lines 557-580): provisional identity `tempId` in both identity
fields, trimmed text, no media, `pending` rendering driven by `temp_id`. -/
def pendingMsg (cu su : UserR) (txt now tempId : String) : Msg :=
  { message_id := some tempId
    temp_id := some tempId
    sender_id := some cu.id
    receiver_id := some su.id
    text := some (jsTrim txt)
    media_url := none
    media_type := none
    file_name := none
    sender_name := some cu.username
    created_at := some now
    edited_at := none
    edited := false
    key := genKey (some tempId) (some tempId) none (some su.id) none }

/-- `handleSendMessage` (ChatPage.jsx lines 535-585) as a function of the
current users, composed text, file-selection flag, socket state and message
list; returns the new list and the trace of observable actions in program
order.  Guard order follows the source: missing users, then empty
text-and-no-file, then socket-not-open, then the file path, then the
optimistic append followed by the dispatch. -/
def handleSendMessage (cu su : Option UserR) (txt : String) (hasFile wsOpen : Bool)
    (now tempId : String) (l : List Msg) : List Msg × List SAction :=
  match cu, su with
  | some c, some s =>
    if jsTrim txt == "" && !hasFile then (l, [])
    else if !wsOpen then
      (l, [.surface "Connection lost. Trying to reconnect...", .reconnect])
    else if hasFile then (l, [.upload])
    else
      let pm := pendingMsg c s txt now tempId
      (l ++ [pm], [.store pm, .dispatchMsg tempId])
  | _, _ => (l, [.surface "Please select a user and ensure you are logged in."])

/-- `fetchMessages` result assignment (ChatPage.jsx lines 172-175): the list is
replaced wholesale by the server response, each record given its key. -/
def addKeys (sl : List Msg) : List Msg :=
  sl.map fun m =>
    { m with key := genKey m.message_id m.temp_id m.sender_id m.receiver_id m.created_at }

/-- `handleEditMessage` (ChatPage.jsx lines 588-634) as a function of the edit
text, target id, socket state, REST outcome and the server list a successful
fallback re-fetch would return.  The empty-text guard rejects first; the
optimistic mutation is applied to the list; on an open socket the edit frame
is dispatched; otherwise the REST fallback runs, and on its failure the
source's "revert" map runs over the already-mutated list. -/
def handleEditMessage (editText mid : String) (wsOpen apiOk : Bool) (now : String)
    (serverList : List Msg) (l : List Msg) : List Msg × List SAction :=
  if jsTrim editText == "" then
    (l, [.surface "Cannot edit message. Text cannot be empty."])
  else
    let l1 := l.map fun m =>
      if m.message_id == some mid then
        { m with text := some (jsTrim editText), edited := true, edited_at := some now }
      else m
    if wsOpen then (l1, [.dispatchEdit mid])
    else if apiOk then
      (addKeys serverList, [.surface "Connection lost. Saving edit via API...", .apiEdit mid])
    else
      let l2 := l1.map fun m =>
        if m.message_id == some mid then
          { m with text := m.text, edited := m.edited || false, edited_at := jsOr m.edited_at none }
        else m
      (l2, [.surface "Connection lost. Saving edit via API...", .apiEdit mid,
            .surface "Failed to edit message. Please try again.", .reconnect])

/-- Lexicographic comparison of character lists by code point. -/
def listLtB : List Char → List Char → Bool
  | [], [] => false
  | [], _ :: _ => true
  | _ :: _, [] => false
  | a :: as, b :: bs => decide (a.toNat < b.toNat) || (a == b && listLtB as bs)

/-- Lexicographic string comparison (how JS compares ISO timestamps). -/
def strLtB (a b : String) : Bool :=
  listLtB a.data b.data

/-- Comparison of `created_at` fields (ISO timestamps compare as strings). -/
def caLtB : Option String → Option String → Bool
  | some a, some b => strLtB a b
  | _, _ => false

/-- Is the list nondecreasing in `created_at`? -/
def sortedByCreated : List Msg → Bool
  | [] => true
  | [_] => true
  | a :: b :: rest => !(caLtB b.created_at a.created_at) && sortedByCreated (b :: rest)

/-- Well-formed sample UUIDs accepted by the source's pattern. -/
def uuidA : String := "aaaaaaaa-aaaa-1aaa-8aaa-aaaaaaaaaaaa"

/-- Second sample UUID. -/
def uuidB : String := "bbbbbbbb-bbbb-1bbb-8bbb-bbbbbbbbbbbb"

/-- Third sample UUID. -/
def uuidC : String := "cccccccc-cccc-1ccc-8ccc-cccccccccccc"

/-- Fourth sample UUID. -/
def uuidD : String := "dddddddd-dddd-1ddd-8ddd-dddddddddddd"

/-- The authenticated user in the concrete scenarios. -/
def cu0 : UserR := { id := uuidA, username := "Alice" }

/-- The selected conversation partner in the concrete scenarios. -/
def su0 : UserR := { id := uuidB, username := "Bob" }

/-- A conversation partner whose display name is the empty string. -/
def suE : UserR := { id := uuidB, username := "" }

/-- A message entry with the fields the scenarios vary; the rest fixed. -/
def mkMsg (mid tid : Option String) (sid rid txt ca : String) (ed : Bool) : Msg :=
  { message_id := mid
    temp_id := tid
    sender_id := some sid
    receiver_id := some rid
    text := some txt
    media_url := none
    media_type := none
    file_name := none
    sender_name := some "n"
    created_at := some ca
    edited_at := none
    edited := ed
    key := "k" }

/-- An inbound `message` event with the fields the scenarios vary. -/
def mkEvent (sid rid : String) (mid tid : Option String) (txt ca : String) : MsgEvent :=
  { sender_id := some sid
    receiver_id := some rid
    text := some txt
    media_url := none
    media_type := none
    file_name := none
    message_id := mid
    temp_id := tid
    created_at := some ca
    sender_name := none
    edited := false }

theorem jsOr_pos {a : Option String} (h : truthy a = true) (b : Option String) :
    jsOr a b = a := by
  simp [jsOr, h]

theorem jsOr_neg {a : Option String} (h : truthy a = false) (b : Option String) :
    jsOr a b = b := by
  simp [jsOr, h]

theorem jsOr_self (a : Option String) : jsOr a a = a := by
  unfold jsOr; split <;> rfl

theorem jsOr_idem (a b : Option String) : jsOr a (jsOr a b) = jsOr a b := by
  cases h : truthy a
  · rw [jsOr_neg h, jsOr_neg h]
  · rw [jsOr_pos h (jsOr a b), jsOr_pos h b]

theorem jsOr_absorb (a b : Option String) : jsOr (jsOr a b) b = jsOr a b := by
  cases h : truthy a
  · rw [jsOr_neg h, jsOr_self]
  · rw [jsOr_pos h, jsOr_pos h]

theorem jsOr_chain (a b c : Option String) :
    jsOr a (jsOr (jsOr a (jsOr b c)) c) = jsOr a (jsOr b c) := by
  cases h : truthy a
  · rw [jsOr_neg h (jsOr (jsOr a (jsOr b c)) c), jsOr_neg h (jsOr b c), jsOr_absorb]
  · rw [jsOr_pos h (jsOr (jsOr a (jsOr b c)) c), jsOr_pos h (jsOr b c)]

theorem truthy_some {s : String} (h : s ≠ "") : truthy (some s) = true := by
  simp [truthy]
  exact h

theorem truthy_infer (u : Option String) : truthy (some (inferMediaType u)) = true := by
  cases u with
  | none => decide
  | some s =>
    simp only [inferMediaType]
    split_ifs <;> decide

theorem map_ite_id {α : Type} {q : α → Bool} {f : α → α} (l : List α)
    (h : ∀ m ∈ l, q m = false) :
    (l.map fun m => if q m then f m else m) = l := by
  induction l with
  | nil => rfl
  | cons a t ih =>
    have ha : q a = false := h a (List.mem_cons_self a t)
    have ht : ∀ m ∈ t, q m = false := fun m hm => h m (List.mem_cons_of_mem a hm)
    simp [ha, ih ht]

theorem updIf_not_matching {cu : UserR} {d : MsgEvent} {m : Msg}
    (h : matchesEvent d m = false) : updIf cu d m = m := by
  simp [updIf, h]

theorem updIf_matching {cu : UserR} {d : MsgEvent} {m : Msg}
    (h : matchesEvent d m = true) : updIf cu d m = updEntry cu d m := by
  simp [updIf, h]

theorem map_updIf_id {cu : UserR} {d : MsgEvent} (l : List Msg)
    (h : ∀ m ∈ l, matchesEvent d m = false) :
    l.map (updIf cu d) = l := by
  have : l.map (updIf cu d) = l.map fun m => if matchesEvent d m then updEntry cu d m else m := rfl
  rw [this, map_ite_id l h]

theorem updEntry_message_id {cu : UserR} {d : MsgEvent} (h : truthy d.message_id = true)
    (m : Msg) : (updEntry cu d m).message_id = d.message_id := by
  simp [updEntry, jsOr_pos h]

theorem newEntry_message_id {cu su : UserR} {d : MsgEvent} (h : truthy d.message_id = true) :
    (newEntry cu su d).message_id = d.message_id := by
  simp [newEntry, jsOr_pos h]

theorem matchesEvent_updEntry {cu : UserR} {d : MsgEvent} (h : truthy d.message_id = true)
    (m : Msg) : matchesEvent d (updEntry cu d m) = true := by
  simp [matchesEvent, updEntry_message_id h, h]

theorem matchesEvent_newEntry {cu su : UserR} {d : MsgEvent} (h : truthy d.message_id = true) :
    matchesEvent d (newEntry cu su d) = true := by
  simp [matchesEvent, newEntry_message_id h, h]

theorem matchesEvent_of_mid {d : MsgEvent} {c : String} (hd : d.message_id = some c)
    (hc : c ≠ "") {m : Msg} (hm : m.message_id = some c) : matchesEvent d m = true := by
  simp [matchesEvent, hm, hd, truthy_some hc]

theorem mid_ne_of_not_matching {d : MsgEvent} {c : String} (hd : d.message_id = some c)
    (hc : c ≠ "") {m : Msg} (h : matchesEvent d m = false) :
    (m.message_id == some c) = false := by
  cases hm : m.message_id == some c
  · rfl
  · have hmm : m.message_id = some c := by simpa using hm
    rw [matchesEvent_of_mid hd hc hmm] at h
    exact h

theorem updEntry_idem (cu : UserR) (d : MsgEvent) (m : Msg) :
    updEntry cu d (updEntry cu d m) = updEntry cu d m := by
  simp only [updEntry, Msg.mk.injEq]
  refine ⟨jsOr_idem _ _, ?_, by trivial, by trivial, jsOr_idem _ _, jsOr_idem _ _,
    jsOr_chain _ _ _, jsOr_idem _ _, jsOr_chain _ _ _, jsOr_idem _ _, by trivial, ?_,
    by trivial⟩
  · cases h : truthy d.temp_id <;> simp [h]
  · cases d.edited <;> simp

theorem updEntry_newEntry (cu su : UserR) (d : MsgEvent)
    (hsn : truthy d.sender_name = true ∨ derivedName cu su d ≠ "") :
    updEntry cu d (newEntry cu su d) = newEntry cu su d := by
  simp only [updEntry, newEntry, Msg.mk.injEq]
  refine ⟨jsOr_idem _ _, ?_, by trivial, by trivial, jsOr_self _, jsOr_self _, ?_,
    jsOr_self _, ?_, jsOr_self _, by trivial, ?_, by trivial⟩
  · cases h : truthy d.temp_id <;> simp [h]
  · rw [jsOr_absorb, jsOr_idem]
  · cases h : truthy d.sender_name
    · have hd : derivedName cu su d ≠ "" := by
        rcases hsn with hs | hd
        · rw [h] at hs; exact absurd hs (by simp)
        · exact hd
      rw [jsOr_neg h (jsOr (jsOr d.sender_name (some (derivedName cu su d))) (some cu.username)),
        jsOr_neg h (some (derivedName cu su d)), jsOr_pos (truthy_some hd)]
    · rw [jsOr_pos h (jsOr (jsOr d.sender_name (some (derivedName cu su d))) (some cu.username)),
        jsOr_pos h (some (derivedName cu su d))]
  · cases d.edited <;> simp

/-- Claim C1 (status: code bug).  The source's own comment says the map run on
REST-fallback failure reverts the optimistic edit, but the map reads the
already-mutated entry (`text: m.text, edited: m.edited || false`), so it keeps
the optimistic values.  Concretely: a message with text `"old"` and edited
flag `false` is edited to `"new text"` while the socket is closed and the REST
confirmation fails; after the "revert" the entry still carries text
`"new text"` and edited flag `true`, not its pre-edit values. -/
theorem C1_edit_revert_keeps_optimistic_values :
    (mkMsg (some "m1") none uuidA uuidB "old" "2024-01-01T00:00:00Z" false).text = some "old" ∧
    (mkMsg (some "m1") none uuidA uuidB "old" "2024-01-01T00:00:00Z" false).edited = false ∧
    ((handleEditMessage "new text" "m1" false false "2024-01-02T00:00:00Z" []
        [mkMsg (some "m1") none uuidA uuidB "old" "2024-01-01T00:00:00Z" false]).1.map
      (fun m => (m.text, m.edited))) = [(some "new text", true)] := by
  decide

/-- Claim C4: from attempt counter 0, five consecutive transport failures
schedule exactly one reconnection each, after 2000, 4000, 8000, 10000 and
10000 ms (`min(1000 * 2 ^ attempt, 10000)` with the counter incremented
first); a sixth failure — and any failure at counter 5 or above — schedules
nothing, and a successful connect resets the counter to 0. -/
theorem C4_backoff_sequence :
    failSeq 0 6 = [some 2000, some 4000, some 8000, some 10000, some 10000, none] ∧
    (∀ a : Nat, 5 ≤ a → wsOnClose a = (a, none)) ∧
    (∀ a : Nat, wsOnOpen a = 0) := by
  refine ⟨by decide, ?_, fun a => rfl⟩
  intro a ha
  simp [wsOnClose, Nat.not_lt.mpr ha]

/-- Witness for C4 at a concrete counter value past the cutoff. -/
theorem C4_witness : wsOnClose 7 = (7, none) :=
  C4_backoff_sequence.2.1 7 (by decide)

/-- Claim C5 (amended): for a nonempty text send with both users present, an
open connection appends the pending provisionally-identified message to the
list and the trace shows the store action before the dispatch; a closed
connection rejects the intent before any store mutation — no pending message
is appended — but not silently: a recoverable failure is surfaced and a
reconnection is attempted. -/
theorem C5_send_paths :
    ∀ (c s : UserR) (txt now tid : String) (l : List Msg),
      jsTrim txt ≠ "" →
      (handleSendMessage (some c) (some s) txt false true now tid l =
        (l ++ [pendingMsg c s txt now tid],
         [SAction.store (pendingMsg c s txt now tid), SAction.dispatchMsg tid])) ∧
      (handleSendMessage (some c) (some s) txt false false now tid l =
        (l, [SAction.surface "Connection lost. Trying to reconnect...", SAction.reconnect])) := by
  intro c s txt now tid l h
  have hc : (jsTrim txt == "") = false := by simp [h]
  constructor <;> simp [handleSendMessage, hc]

/-- Counterexample to C5 as stated: with the socket closed, a valid send
intent (`"hi"`, no file) leaves the message list empty — no pending message
is stored — while the claim asserts the pending message is still stored. -/
theorem C5_counterexample :
    handleSendMessage (some cu0) (some su0) "hi" false false "2024-01-01T00:00:00Z" "t9" [] =
      ([], [SAction.surface "Connection lost. Trying to reconnect...", SAction.reconnect]) := by
  decide

/-- Witness for C5 on the connected path. -/
theorem C5_witness :
    jsTrim "hello" ≠ "" ∧
    handleSendMessage (some cu0) (some su0) "hello" false true "2024-01-01T00:00:00Z" "t1" [] =
      ([pendingMsg cu0 su0 "hello" "2024-01-01T00:00:00Z" "t1"],
       [SAction.store (pendingMsg cu0 su0 "hello" "2024-01-01T00:00:00Z" "t1"),
        SAction.dispatchMsg "t1"]) := by
  refine ⟨by decide, ?_⟩
  have h := (C5_send_paths cu0 su0 "hello" "2024-01-01T00:00:00Z" "t1" [] (by decide)).1
  simpa using h

/-- Claim C7 (amended): an inbound `message` event mutates the store only when
both participant identifiers are well-formed UUIDs and the pair matches the
active conversation in either direction.  A malformed-identifier event leaves
the store unchanged and surfaces a validation warning; an event failing only
the conversation-pair check leaves the store unchanged but surfaces nothing. -/
theorem C7_validation_gate :
    ∀ (cu su : UserR) (d : MsgEvent) (l : List Msg),
      ((processMessageEvent cu su d l).1 ≠ l → validB d = true ∧ pairB cu su d = true) ∧
      (validB d = false →
        processMessageEvent cu su d l = (l, some "Received invalid message data.")) ∧
      (validB d = true → pairB cu su d = false →
        processMessageEvent cu su d l = (l, none)) := by
  intro cu su d l
  refine ⟨?_, ?_, ?_⟩
  · intro hne
    by_cases hv : validB d = true
    · by_cases hp : pairB cu su d = true
      · exact ⟨hv, hp⟩
      · exfalso
        apply hne
        have hp2 : pairB cu su d = false := by simpa using hp
        simp [processMessageEvent, hv, hp2]
    · exfalso
      apply hne
      have hv2 : validB d = false := by simpa using hv
      simp [processMessageEvent, hv2]
  · intro hv
    simp [processMessageEvent, hv]
  · intro hv hp
    simp [processMessageEvent, hv, hp]

/-- Counterexample to C7 as stated: an event between two well-formed UUIDs
that do not form the active conversation is dropped with the store unchanged
but with no surfaced warning, while the claim asserts a validation warning is
surfaced for every failing event. -/
theorem C7_counterexample :
    validB (mkEvent uuidC uuidD (some "m9") none "x" "2024-01-01T00:00:00Z") = true ∧
    pairB cu0 su0 (mkEvent uuidC uuidD (some "m9") none "x" "2024-01-01T00:00:00Z") = false ∧
    processMessageEvent cu0 su0 (mkEvent uuidC uuidD (some "m9") none "x" "2024-01-01T00:00:00Z")
        [mkMsg (some "m0") none uuidA uuidB "t" "2024-01-01T00:00:00Z" false] =
      ([mkMsg (some "m0") none uuidA uuidB "t" "2024-01-01T00:00:00Z" false], none) := by
  decide

/-- Witness for C7 on a malformed-identifier event. -/
theorem C7_witness :
    validB (mkEvent "bad" uuidB (some "m9") none "x" "2024-01-01T00:00:00Z") = false ∧
    processMessageEvent cu0 su0 (mkEvent "bad" uuidB (some "m9") none "x" "2024-01-01T00:00:00Z") [] =
      ([], some "Received invalid message data.") := by
  refine ⟨by decide, ?_⟩
  exact (C7_validation_gate cu0 su0
    (mkEvent "bad" uuidB (some "m9") none "x" "2024-01-01T00:00:00Z") []).2.1 (by decide)

/-- Claim C9: every inbound `error` frame is surfaced; the session is
invalidated (token removed, route forced back to login) exactly when the
free-text error contains one of the auth-invalidating phrases, by substring
match; any other error frame changes nothing besides being surfaced. -/
theorem C9_error_classification :
    ∀ (e : String) (s : Session),
      (authPhraseB e = true →
        handleErrorFrame e s = ({ token := none, route := "/" }, some e)) ∧
      (authPhraseB e = false → handleErrorFrame e s = (s, some e)) := by
  intro e s
  constructor <;> intro h <;> simp [handleErrorFrame, h]

/-- Witness for C9: an auth-class error invalidates, a plain error does not. -/
theorem C9_witness :
    authPhraseB "boom: Invalid token" = true ∧
    handleErrorFrame "boom: Invalid token" { token := some "tk", route := "/chat" } =
      ({ token := none, route := "/" }, some "boom: Invalid token") ∧
    authPhraseB "rate limited" = false ∧
    handleErrorFrame "rate limited" { token := some "tk", route := "/chat" } =
      ({ token := some "tk", route := "/chat" }, some "rate limited") := by
  refine ⟨by decide, ?_, by decide, ?_⟩
  · exact (C9_error_classification "boom: Invalid token"
      { token := some "tk", route := "/chat" }).1 (by decide)
  · exact (C9_error_classification "rate limited"
      { token := some "tk", route := "/chat" }).2 (by decide)

/-- Claim C10: a send attempt whose text trims to empty with no file selected,
and an edit attempt whose text trims to empty, are rejected before any
mutation: the message list is returned unchanged and the action trace
contains no store mutation, no dispatched frame and no REST call. -/
theorem C10_empty_input_rejected :
    ∀ (cu su : Option UserR) (txt etxt mid now tid : String) (wsOpen apiOk : Bool)
      (sv l : List Msg),
      (jsTrim txt = "" →
        (handleSendMessage cu su txt false wsOpen now tid l).1 = l ∧
        (handleSendMessage cu su txt false wsOpen now tid l).2.all
          (fun a => !mutating a) = true) ∧
      (jsTrim etxt = "" →
        (handleEditMessage etxt mid wsOpen apiOk now sv l).1 = l ∧
        (handleEditMessage etxt mid wsOpen apiOk now sv l).2.all
          (fun a => !mutating a) = true) := by
  intro cu su txt etxt mid now tid wsOpen apiOk sv l
  constructor
  · intro h
    have hc : (jsTrim txt == "") = true := by simp [h]
    cases cu <;> cases su <;> simp [handleSendMessage, mutating, hc]
  · intro h
    have hc : (jsTrim etxt == "") = true := by simp [h]
    simp [handleEditMessage, mutating, hc]

/-- Witness for C10 at whitespace-only send text and empty edit text. -/
theorem C10_witness :
    jsTrim " " = "" ∧
    (handleSendMessage (some cu0) (some su0) " " false true "n" "t" []).1 = [] ∧
    (handleEditMessage "" "m1" true false "n" [] []).1 = [] := by
  refine ⟨by decide, ?_, ?_⟩
  · exact ((C10_empty_input_rejected (some cu0) (some su0) " " "" "m1" "n" "t" true false
      [] []).1 (by decide)).1
  · exact ((C10_empty_input_rejected (some cu0) (some su0) " " "" "m1" "n" "t" true false
      [] []).2 (by decide)).1

/-- Claim C2 (amended): when an inbound event carries a nonempty provisional
identity matching an existing entry and a nonempty canonical identity, and
that entry is the only one matching the event's identities, the merge updates
it in place, promotes its identity to the canonical one, keeps the list
length unchanged, and leaves exactly one entry carrying the canonical
identity. -/
theorem C2_identity_promotion_unique_match :
    ∀ (cu su : UserR) (d : MsgEvent) (l₁ l₂ : List Msg) (A : Msg) (t c : String),
      d.temp_id = some t → t ≠ "" → d.message_id = some c → c ≠ "" →
      A.temp_id = some t →
      (∀ m ∈ l₁, matchesEvent d m = false) →
      (∀ m ∈ l₂, matchesEvent d m = false) →
      mergeMessage cu su d (l₁ ++ A :: l₂) = l₁ ++ updEntry cu d A :: l₂ ∧
      (mergeMessage cu su d (l₁ ++ A :: l₂)).length = (l₁ ++ A :: l₂).length ∧
      (updEntry cu d A).message_id = some c ∧
      (mergeMessage cu su d (l₁ ++ A :: l₂)).countP
        (fun m => m.message_id == some c) = 1 := by
  intro cu su d l₁ l₂ A t c hdt ht hdc hc hAt h₁ h₂
  have hT : truthy d.message_id = true := by rw [hdc]; exact truthy_some hc
  have hmatchA : matchesEvent d A = true := by
    simp [matchesEvent, hAt, hdt, truthy_some ht]
  have hany : (l₁ ++ A :: l₂).any (matchesEvent d) = true := by
    simp [hmatchA]
  have hmain : mergeMessage cu su d (l₁ ++ A :: l₂) = l₁ ++ updEntry cu d A :: l₂ := by
    simp only [mergeMessage, hany, if_true]
    rw [List.map_append, List.map_cons, map_updIf_id l₁ h₁, map_updIf_id l₂ h₂,
      updIf_matching hmatchA]
  have hupd : (updEntry cu d A).message_id = some c := by
    rw [updEntry_message_id hT, hdc]
  have q1 : l₁.countP (fun m => m.message_id == some c) = 0 :=
    List.countP_eq_zero.mpr (fun a ha => by
      simp [mid_ne_of_not_matching hdc hc (h₁ a ha)])
  have q2 : l₂.countP (fun m => m.message_id == some c) = 0 :=
    List.countP_eq_zero.mpr (fun a ha => by
      simp [mid_ne_of_not_matching hdc hc (h₂ a ha)])
  refine ⟨hmain, by rw [hmain]; simp, hupd, ?_⟩
  rw [hmain]
  simp [List.countP_append, List.countP_cons, q1, q2, hupd]

/-- Counterexample to C2 as stated: if some other entry already carries the
canonical identity, the merge updates every matching entry, and two entries
end up sharing that canonical identity. -/
theorem C2_duplicate_canonical_counterexample :
    ([mkMsg (some "t1") (some "t1") uuidA uuidB "hello" "2024-01-01T00:00:00Z" false,
      mkMsg (some "c1") none uuidA uuidB "other" "2024-01-01T00:00:00Z" false].countP
      (fun m => m.message_id == some "c1")) = 1 ∧
    ((mergeMessage cu0 su0 (mkEvent uuidA uuidB (some "c1") (some "t1") "hello" "2024-01-01T00:00:00Z")
        [mkMsg (some "t1") (some "t1") uuidA uuidB "hello" "2024-01-01T00:00:00Z" false,
         mkMsg (some "c1") none uuidA uuidB "other" "2024-01-01T00:00:00Z" false]).countP
      (fun m => m.message_id == some "c1")) = 2 := by
  decide

/-- Witness for C2 on a singleton provisional entry. -/
theorem C2_identity_promotion_witness :
    mergeMessage cu0 su0 (mkEvent uuidA uuidB (some "c1") (some "t1") "hi" "2024-01-01T00:00:00Z")
        ([] ++ mkMsg (some "t1") (some "t1") uuidA uuidB "hi" "2024-01-01T00:00:00Z" false :: []) =
      [] ++ updEntry cu0 (mkEvent uuidA uuidB (some "c1") (some "t1") "hi" "2024-01-01T00:00:00Z")
        (mkMsg (some "t1") (some "t1") uuidA uuidB "hi" "2024-01-01T00:00:00Z" false) :: [] ∧
    (mergeMessage cu0 su0 (mkEvent uuidA uuidB (some "c1") (some "t1") "hi" "2024-01-01T00:00:00Z")
        ([] ++ mkMsg (some "t1") (some "t1") uuidA uuidB "hi" "2024-01-01T00:00:00Z" false :: [])).countP
      (fun m => m.message_id == some "c1") = 1 := by
  have h := C2_identity_promotion_unique_match cu0 su0
    (mkEvent uuidA uuidB (some "c1") (some "t1") "hi" "2024-01-01T00:00:00Z") [] []
    (mkMsg (some "t1") (some "t1") uuidA uuidB "hi" "2024-01-01T00:00:00Z" false)
    "t1" "c1" rfl (by decide) rfl (by decide) rfl (by simp) (by simp)
  exact ⟨h.1, h.2.2.2⟩

/-- Claim C6 (amended): a merge never moves previously present entries — the
entry at each index is either kept or updated in place — and at most one new
entry appears, appended at the end; insertion position is by arrival order,
not by the `created_at` ordering key. -/
theorem C6_merge_order_stability :
    ∀ (cu su : UserR) (d : MsgEvent) (l : List Msg),
      ((mergeMessage cu su d l).length = l.length ∨
       (mergeMessage cu su d l).length = l.length + 1) ∧
      (∀ i : Nat, i < l.length →
        (mergeMessage cu su d l)[i]? = l[i]? ∨
        (mergeMessage cu su d l)[i]? = Option.map (updEntry cu d) l[i]?) := by
  intro cu su d l
  unfold mergeMessage
  by_cases h : l.any (matchesEvent d) = true
  · rw [if_pos h]
    refine ⟨Or.inl (by simp), ?_⟩
    intro i hi
    rw [List.getElem?_map]
    cases hx : l[i]? with
    | none => left; simp
    | some m =>
      cases hm : matchesEvent d m
      · left; simp [Option.map, updIf_not_matching hm]
      · right; simp [Option.map, updIf_matching hm]
  · rw [if_neg h]
    refine ⟨Or.inr (by simp), ?_⟩
    intro i hi
    left
    exact List.getElem?_append_left hi

/-- Counterexample to C6 as stated: merging an event whose `created_at`
precedes the last displayed entry appends it at the end, so a list sorted by
the ordering key stops being sorted — the new message is not inserted by
`(created_at, sequence)`. -/
theorem C6_counterexample :
    sortedByCreated
      [mkMsg (some "m2") none uuidA uuidB "x" "2024-01-02T00:00:00Z" false] = true ∧
    sortedByCreated
      (mergeMessage cu0 su0 (mkEvent uuidA uuidB (some "m9") none "late" "2024-01-01T00:00:00Z")
        [mkMsg (some "m2") none uuidA uuidB "x" "2024-01-02T00:00:00Z" false]) = false := by
  decide

/-- Witness for C6 at index 0 of a singleton list. -/
theorem C6_witness :
    (mergeMessage cu0 su0 (mkEvent uuidA uuidB (some "m9") none "late" "2024-01-01T00:00:00Z")
        [mkMsg (some "m2") none uuidA uuidB "x" "2024-01-02T00:00:00Z" false])[0]? =
      [mkMsg (some "m2") none uuidA uuidB "x" "2024-01-02T00:00:00Z" false][0]? ∨
    (mergeMessage cu0 su0 (mkEvent uuidA uuidB (some "m9") none "late" "2024-01-01T00:00:00Z")
        [mkMsg (some "m2") none uuidA uuidB "x" "2024-01-02T00:00:00Z" false])[0]? =
      Option.map (updEntry cu0 (mkEvent uuidA uuidB (some "m9") none "late" "2024-01-01T00:00:00Z"))
        [mkMsg (some "m2") none uuidA uuidB "x" "2024-01-02T00:00:00Z" false][0]? :=
  (C6_merge_order_stability cu0 su0
    (mkEvent uuidA uuidB (some "m9") none "late" "2024-01-01T00:00:00Z")
    [mkMsg (some "m2") none uuidA uuidB "x" "2024-01-02T00:00:00Z" false]).2 0 (by decide)

/-- Claim C8: an inbound `edit` or `delete` whose `message_id` matches no
entry leaves the list exactly unchanged; an `edit` matching an entry sets its
text and marks it edited, and a `delete` matching exactly one entry removes
exactly that entry, keeping all others in place. -/
theorem C8_edit_delete_unknown_noop :
    ∀ (l l₁ l₂ : List Msg) (A : Msg) (mid now : String) (txt ea : Option String),
      ((∀ m ∈ l, (m.message_id == some mid) = false) →
        applyEditEvent (some mid) txt ea now l = l ∧
        applyDeleteEvent (some mid) l = l) ∧
      (A.message_id = some mid →
       (∀ m ∈ l₁, (m.message_id == some mid) = false) →
       (∀ m ∈ l₂, (m.message_id == some mid) = false) →
        applyEditEvent (some mid) txt ea now (l₁ ++ A :: l₂) =
          l₁ ++ editApplied txt ea now A :: l₂ ∧
        applyDeleteEvent (some mid) (l₁ ++ A :: l₂) = l₁ ++ l₂) := by
  intro l l₁ l₂ A mid now txt ea
  constructor
  · intro h
    constructor
    · exact map_ite_id l h
    · exact List.filter_eq_self.mpr (fun a ha => by simp [h a ha])
  · intro hA h₁ h₂
    have hAb : (A.message_id == some mid) = true := by simp [hA]
    constructor
    · show ((l₁ ++ A :: l₂).map fun m =>
        if m.message_id == some mid then editApplied txt ea now m else m) = _
      rw [List.map_append, List.map_cons, map_ite_id l₁ h₁, map_ite_id l₂ h₂, if_pos hAb]
    · show ((l₁ ++ A :: l₂).filter fun m => !(m.message_id == some mid)) = _
      have f1 : (l₁.filter fun m => !(m.message_id == some mid)) = l₁ :=
        List.filter_eq_self.mpr (fun a ha => by simp [h₁ a ha])
      have f2 : (l₂.filter fun m => !(m.message_id == some mid)) = l₂ :=
        List.filter_eq_self.mpr (fun a ha => by simp [h₂ a ha])
      rw [List.filter_append, List.filter_cons, f1]
      simp [hAb, f2]

/-- Witness for C8: a no-op on an unknown identity and an exact single
removal on a known one. -/
theorem C8_witness :
    applyEditEvent (some "m1") (some "t2") none "2024-01-02T00:00:00Z"
        [mkMsg (some "zz") none uuidA uuidB "a" "2024-01-01T00:00:00Z" false] =
      [mkMsg (some "zz") none uuidA uuidB "a" "2024-01-01T00:00:00Z" false] ∧
    applyDeleteEvent (some "m1")
        ([] ++ mkMsg (some "m1") none uuidA uuidB "a" "2024-01-01T00:00:00Z" false :: []) =
      [] ++ [] := by
  constructor
  · exact ((C8_edit_delete_unknown_noop
      [mkMsg (some "zz") none uuidA uuidB "a" "2024-01-01T00:00:00Z" false] [] []
      (mkMsg (some "m1") none uuidA uuidB "a" "2024-01-01T00:00:00Z" false)
      "m1" "2024-01-02T00:00:00Z" (some "t2") none).1 (by decide)).1
  · exact ((C8_edit_delete_unknown_noop
      [mkMsg (some "zz") none uuidA uuidB "a" "2024-01-01T00:00:00Z" false] [] []
      (mkMsg (some "m1") none uuidA uuidB "a" "2024-01-01T00:00:00Z" false)
      "m1" "2024-01-02T00:00:00Z" (some "t2") none).2 rfl (by simp) (by simp)).2

/-- Claim C3 (amended): delivering the same canonical-identity message event
twice yields exactly one entry for that identity and the second application
changes nothing, provided at most one existing entry matches the event's
identities and either the event carries a truthy `sender_name` or the locally
derived sender display name is nonempty; truthy incoming fields win over
stored ones in the in-place update. -/
theorem C3_double_delivery_idempotent :
    ∀ (cu su : UserR) (d : MsgEvent) (l : List Msg) (c : String),
      d.message_id = some c → c ≠ "" →
      l.countP (matchesEvent d) ≤ 1 →
      (truthy d.sender_name = true ∨ derivedName cu su d ≠ "") →
      mergeMessage cu su d (mergeMessage cu su d l) = mergeMessage cu su d l ∧
      (mergeMessage cu su d l).countP (fun m => m.message_id == some c) = 1 := by
  intro cu su d l c hdc hc hcount hsn
  have hT : truthy d.message_id = true := by rw [hdc]; exact truthy_some hc
  by_cases h : l.any (matchesEvent d) = true
  · have hfl : mergeMessage cu su d l = l.map (updIf cu d) := by
      simp [mergeMessage, h]
    have hany2 : (l.map (updIf cu d)).any (matchesEvent d) = true := by
      rcases List.any_eq_true.mp h with ⟨m, hm, hpm⟩
      refine List.any_eq_true.mpr ⟨updIf cu d m, List.mem_map_of_mem _ hm, ?_⟩
      rw [updIf_matching hpm]
      exact matchesEvent_updEntry hT _
    constructor
    · rw [hfl]
      have h2 : mergeMessage cu su d (l.map (updIf cu d)) =
          (l.map (updIf cu d)).map (updIf cu d) := by
        simp [mergeMessage, hany2]
      rw [h2, List.map_map]
      apply List.map_congr_left
      intro a _
      simp only [Function.comp]
      cases hpa : matchesEvent d a
      · rw [updIf_not_matching hpa, updIf_not_matching hpa]
      · rw [updIf_matching hpa, updIf_matching (matchesEvent_updEntry hT a), updEntry_idem]
    · rw [hfl, List.countP_map]
      have hcongr : l.countP ((fun m => m.message_id == some c) ∘ updIf cu d) =
          l.countP (matchesEvent d) := by
        apply List.countP_congr
        intro a _
        simp only [Function.comp]
        constructor
        · intro hq
          cases hpa : matchesEvent d a
          · rw [updIf_not_matching hpa] at hq
            have hne := mid_ne_of_not_matching hdc hc hpa
            rw [hq] at hne
            exact absurd hne (by simp)
          · rfl
        · intro hpa
          rw [updIf_matching hpa, updEntry_message_id hT, hdc]
          simp
      rw [hcongr]
      have h1 : 0 < l.countP (matchesEvent d) := by
        rcases List.any_eq_true.mp h with ⟨m, hm, hpm⟩
        exact List.countP_pos_iff.mpr ⟨m, hm, hpm⟩
      omega
  · have hnol : ∀ m ∈ l, matchesEvent d m = false := by
      intro m hm
      cases hh : matchesEvent d m
      · rfl
      · exact absurd (List.any_eq_true.mpr ⟨m, hm, hh⟩) h
    have hfl : mergeMessage cu su d l = l ++ [newEntry cu su d] := by
      simp only [mergeMessage]
      rw [if_neg h]
    have hany2 : (l ++ [newEntry cu su d]).any (matchesEvent d) = true := by
      simp [@matchesEvent_newEntry cu su d hT]
    constructor
    · rw [hfl]
      have h2 : mergeMessage cu su d (l ++ [newEntry cu su d]) =
          (l ++ [newEntry cu su d]).map (updIf cu d) := by
        simp [mergeMessage, hany2]
      rw [h2, List.map_append, map_updIf_id l hnol, List.map_cons, List.map_nil,
        updIf_matching (matchesEvent_newEntry hT), updEntry_newEntry cu su d hsn]
    · rw [hfl, List.countP_append]
      have q0 : l.countP (fun m => m.message_id == some c) = 0 :=
        List.countP_eq_zero.mpr (fun a ha => by
          simp [mid_ne_of_not_matching hdc hc (hnol a ha)])
      have qn : ((newEntry cu su d).message_id == some c) = true := by
        rw [newEntry_message_id hT, hdc]
        simp
      simp [q0, qn, List.countP_cons]

/-- Counterexample to C3 as stated: first, with two pre-existing entries for
the canonical identity, double delivery leaves two entries, not one; second,
when the event has no `sender_name` and the derived display name is the empty
string, the second application rewrites `sender_name` to the current user's
name, so double delivery is not idempotent. -/
theorem C3_counterexample :
    ((mergeMessage cu0 su0 (mkEvent uuidA uuidB (some "c1") none "hi" "2024-01-01T00:00:00Z")
        (mergeMessage cu0 su0 (mkEvent uuidA uuidB (some "c1") none "hi" "2024-01-01T00:00:00Z")
          [mkMsg (some "c1") none uuidA uuidB "a" "2024-01-01T00:00:00Z" false,
           mkMsg (some "c1") none uuidA uuidB "b" "2024-01-01T00:00:00Z" false])).countP
      (fun m => m.message_id == some "c1")) = 2 ∧
    mergeMessage cu0 suE (mkEvent uuidB uuidA (some "c1") none "hi" "2024-01-01T00:00:00Z")
        (mergeMessage cu0 suE (mkEvent uuidB uuidA (some "c1") none "hi" "2024-01-01T00:00:00Z") []) ≠
      mergeMessage cu0 suE (mkEvent uuidB uuidA (some "c1") none "hi" "2024-01-01T00:00:00Z") [] := by
  decide

/-- Witness for C3 starting from the empty list. -/
theorem C3_witness :
    mergeMessage cu0 su0 (mkEvent uuidA uuidB (some "c1") none "hi" "2024-01-01T00:00:00Z")
        (mergeMessage cu0 su0 (mkEvent uuidA uuidB (some "c1") none "hi" "2024-01-01T00:00:00Z") []) =
      mergeMessage cu0 su0 (mkEvent uuidA uuidB (some "c1") none "hi" "2024-01-01T00:00:00Z") [] ∧
    (mergeMessage cu0 su0 (mkEvent uuidA uuidB (some "c1") none "hi" "2024-01-01T00:00:00Z")
        []).countP (fun m => m.message_id == some "c1") = 1 :=
  C3_double_delivery_idempotent cu0 su0
    (mkEvent uuidA uuidB (some "c1") none "hi" "2024-01-01T00:00:00Z") [] "c1"
    rfl (by decide) (by simp) (Or.inr (by decide))

end ChatApp
